import Mathlib

/-!
Shallow embedding of `salt/modules/boto_ec2.py` (the Salt EC2 execution
module) and proofs about its selector-resolution, result-envelope and
error-handling behaviour.

Modelling conventions:
- The boto connection object is modelled by `BotoEc2.Conn`: the lists of
  remote instances / network interfaces it would report, together with the
  predetermined responses (success value or `BotoErr`) of each remote call.
- `_get_conn` is modelled by a `CredResolver : Creds → Conn`; per the
  module documentation it only constructs a client handle.
- Python truthiness of optional strings/ints is `pyTruthy` / `pyTruthyInt`.
- A Python dict key that may be absent is an `Option` field; accessing a
  missing «attribute» or key raises (`PyExc.attributeError` / `PyExc.keyError`).
- Each embedded function returns its Python value (or raised exception)
  paired with the list of remote API calls it issued, in order.
-/

namespace BotoEc2

/-- Python truthiness of an optional string argument (`None` and `''` are falsy). -/
def pyTruthy : Option String → Bool
  | none => false
  | some s => s != ""

/-- Python truthiness of an optional integer argument (`None` and `0` are falsy). -/
def pyTruthyInt : Option Int → Bool
  | none => false
  | some i => i != 0

/-- Python exceptions that the embedded functions can raise. -/
inductive PyExc where
  | saltInvocation (msg : String)
  | commandExecution (msg : String)
  | typeError (msg : String)
  | keyError (missingKey : String)
  | unboundLocal (varName : String)
  | attributeError (attrName : String)
deriving Repr, DecidableEq

/-- An error dict as produced by the boto error normalizer
(`__utils__['boto.get_error']`). -/
structure ErrMsg where
  message : String
deriving Repr, DecidableEq

/-- A `boto` server/response error raised by a remote call. -/
structure BotoErr where
  message : String
deriving Repr, DecidableEq

/-- `__utils__['boto.get_error']`: normalize a boto error into a message dict. -/
def getError (e : BotoErr) : ErrMsg :=
  ErrMsg.mk e.message

/-- The `{result: ...}` / `{error: {message: ...}}` dict built by the
network-interface functions; each `Option` field records whether the
corresponding dict key is present. -/
structure Envelope (α : Type) where
  result? : Option α
  error? : Option ErrMsg
deriving Repr, DecidableEq

/-- Envelope with only the `result` key. -/
def Envelope.res {α : Type} (a : α) : Envelope α :=
  Envelope.mk (some a) none

/-- Envelope with only the `error` key, from a plain message. -/
def Envelope.err {α : Type} (m : String) : Envelope α :=
  Envelope.mk none (some (ErrMsg.mk m))

/-- Envelope with only the `error` key, from a normalized boto error. -/
def Envelope.errOf {α : Type} (e : BotoErr) : Envelope α :=
  Envelope.mk none (some (getError e))

/-- Exactly one of the `result` and `error` keys is present. -/
def Envelope.xorKeys {α : Type} (env : Envelope α) : Bool :=
  env.result?.isSome != env.error?.isSome

/-- A remote EC2 instance as reported by `conn.get_all_instances`. -/
structure Instance where
  id : String
  tags : List (String × String)
deriving Repr, DecidableEq

/-- The attachment sub-object of a network interface (`eni.attachment`);
`Option` fields model attributes that may be absent on the boto object. -/
structure ENIAttachment where
  id : Option String
  instance_id : Option String
  device_index : Option Int
  status : Option String
deriving Repr, DecidableEq

/-- A remote Elastic Network Interface as reported by
`conn.get_all_network_interfaces`; `Option` fields model attributes that
may be absent on the boto object (guarded by `hasattr` in the source). -/
structure ENI where
  id : Option String
  tags : List (String × String)
  vpc_id : Option String
  status : Option String
  description : Option String
  attachment : Option ENIAttachment
  regionName : String
  groups : List (String × String)
  private_ip_addresses : List (String × Bool)
deriving Repr, DecidableEq

/-- The flat dict produced by `_describe_network_interface`; `Option`
fields record which keys are present. -/
structure NIDesc where
  id? : Option String
  vpc_id? : Option String
  status? : Option String
  description? : Option String
  regionName : String
  groups : List (String × String)
  private_ip_addresses : List (String × Bool)
  attachment_id? : Option String
  attachment_instance_id? : Option String
  attachment_device_index? : Option Int
  attachment_status? : Option String
deriving Repr, DecidableEq

/-- The credential/region selector every public function accepts. -/
structure Creds where
  region : Option String
  key : Option String
  keyid : Option String
  profile : Option String
deriving Repr, DecidableEq

/-- An opaque value passed as `value` to
`modify_network_interface_attribute`. -/
inductive PyVal where
  | str (s : String)
  | boolean (b : Bool)
  | listOf (l : List String)
deriving Repr, DecidableEq

/-- The remote API calls a function can issue (connection-handle
construction by `_get_conn` is not a remote call). -/
inductive NetCall where
  | getAllInstances
  | terminateInstance (instance_id : String)
  | runInstances
  | getInstanceAttr
  | modifyInstanceAttr
  | getAllEnis
  | createEni
  | addTag
  | deleteEni
  | attachEni
  | detachEni
  | modifyEniAttr
deriving Repr, DecidableEq

/-- The state of the remote control plane as seen through one boto
connection handle: the resources it reports and the predetermined
outcome of each remote call. -/
structure Conn where
  instances : List Instance
  getAllInstancesError : Bool
  enis : List ENI
  getAllEnisError : Bool
  runInstancesOk : Bool
  instanceStatusAt : Nat → String
  getInstanceAttributeResponse : Except BotoErr (Option String)
  modifyInstanceAttributeResponse : Except BotoErr Bool
  createEniResponse : Except BotoErr ENI
  addTagResponse : Except BotoErr Unit
  deleteEniResponse : Except BotoErr Bool
  attachEniResponse : Except BotoErr Bool
  detachEniResponse : Except BotoErr Bool
  modifyEniAttrResponse : Except BotoErr Bool

/-- `_get_conn`: resolves region/credential parameters to a connection
handle (handle construction only, no remote call). -/
def CredResolver : Type := Creds → Conn

/-- Does instance `i` pass the filter set built by `find_instances`
(`instance_ids` when an id is supplied, `tag:Name` when a name is
supplied, one `tag:<k>` filter per supplied tag)? -/
def instanceMatches (instance_id name : Option String) (tags : List (String × String)) (i : Instance) : Bool :=
  (!pyTruthy instance_id || i.id == instance_id.getD "") &&
  (!pyTruthy name || i.tags.contains ("Name", name.getD "")) &&
  tags.all (fun kv => i.tags.contains kv)

/-- The value `find_instances` returns: the Python `False` sentinel, a
list of instance ids, or a list of instance objects. -/
inductive FindResult where
  | falseSentinel
  | ids (l : List String)
  | objs (l : List Instance)
deriving Repr, DecidableEq

/-- Python truthiness of a `find_instances` return value. -/
def FindResult.truthy : FindResult → Bool
  | .falseSentinel => false
  | .ids l => !l.isEmpty
  | .objs l => !l.isEmpty

/-- Python `len()` applied to a `find_instances` return value:
`len(False)` raises `TypeError`. -/
def pyLen : FindResult → Except PyExc Nat
  | .falseSentinel => Except.error (PyExc.typeError "object of type bool has no len()")
  | .ids l => Except.ok l.length
  | .objs l => Except.ok l.length

/-- `find_instances`: build the filter set, issue one
`get_all_instances` call, and return the matching instances (ids or
objects); returns the `False` sentinel both when nothing matches and
when the remote call raises `BotoServerError`. -/
def find_instances (resolve : CredResolver) (instance_id name : Option String)
    (tags : List (String × String)) (region key keyid profile : Option String)
    (return_objs : Bool) : FindResult × List NetCall :=
  let conn := resolve (Creds.mk region key keyid profile)
  if conn.getAllInstancesError then
    (FindResult.falseSentinel, [NetCall.getAllInstances])
  else
    let instances := conn.instances.filter (instanceMatches instance_id name tags)
    if instances.isEmpty then
      (FindResult.falseSentinel, [NetCall.getAllInstances])
    else if return_objs then
      (FindResult.objs instances, [NetCall.getAllInstances])
    else
      (FindResult.ids (instances.map Instance.id), [NetCall.getAllInstances])

/-- `terminate`: find the instances matching `instance_id`/`name`; if the
finder returned its false sentinel, return it; if exactly one instance
matched, terminate it and return `True`; otherwise refuse and return
`False`. -/
def terminate (resolve : CredResolver) (instance_id name : Option String)
    (region key keyid profile : Option String) : Bool × List NetCall :=
  match find_instances resolve instance_id name [] region key keyid profile true with
  | (FindResult.falseSentinel, log1) => (false, log1)
  | (FindResult.objs l, log1) =>
    match l with
    | [i] => (true, log1 ++ [NetCall.terminateInstance i.id])
    | _ => (false, log1)
  | (FindResult.ids l, log1) =>
    -- unreachable: `find_instances` called with `return_objs=True` never
    -- returns bare ids
    match l with
    | [_] => (true, log1)
    | _ => (false, log1)

/-- `exists`: delegate to `find_instances` and report truthiness of the
result. The source passes only `instance_id`, `name` and `tags` along —
the `region`, `key`, `keyid` and `profile` arguments are dropped, so the
finder always runs with the default (all-`None`) credentials. -/
def «exists» (resolve : CredResolver) (instance_id name : Option String)
    (tags : List (String × String))
    (region key keyid profile : Option String) : Bool × List NetCall :=
  let found := find_instances resolve instance_id name tags none none none none false
  (found.1.truthy, found.2)

/-- The closed allow-list of instance «attribute» names shared by
`get_attribute` and `set_attribute`. -/
def attribute_list : List String :=
  ["instanceType", "kernel", "ramdisk", "userData", "disableApiTermination",
   "instanceInitiatedShutdownBehavior", "rootDeviceName", "blockDeviceMapping", "productCodes",
   "sourceDestCheck", "groupSet", "ebsOptimized", "sriovNetSupport"]

/-- The value `get_attribute` returns on its non-raising paths: `False`,
or the singleton dict `{«attribute»: value}`. -/
inductive GetAttrRet where
  | retFalse
  | retPair («attribute» : String) (value : String)
deriving Repr, DecidableEq

/-- `get_attribute`: validate the selector and the «attribute» name, then
resolve `instance_name` through `find_instances` (raising `TypeError`
when the finder returned its `False` sentinel, since the source applies
`len` to it) and issue one `get_instance_attribute` call. -/
def get_attribute (resolve : CredResolver) («attribute» : String)
    (instance_name instance_id : Option String)
    (region key keyid profile : Option String) :
    Except PyExc GetAttrRet × List NetCall :=
  let conn := resolve (Creds.mk region key keyid profile)
  if !(pyTruthy instance_name || pyTruthy instance_id) then
    (Except.error (PyExc.saltInvocation "At least one of the following must be specified: instance_name or instance_id."), [])
  else if pyTruthy instance_name && pyTruthy instance_id then
    (Except.error (PyExc.saltInvocation "Both instance_name and instance_id can not be specified in the same command."), [])
  else if !(attribute_list.contains «attribute») then
    (Except.error (PyExc.saltInvocation ("Attribute must be one of: " ++ toString attribute_list ++ ".")), [])
  else if pyTruthy instance_name then
    match find_instances resolve none instance_name [] region key keyid profile false with
    | (FindResult.falseSentinel, log1) =>
      -- `len(instances)` with `instances = False` raises TypeError,
      -- which the `except BotoServerError` clause does not catch
      (Except.error (PyExc.typeError "object of type bool has no len()"), log1)
    | (FindResult.ids l, log1) =>
      if l.length != 1 then
        (Except.error (PyExc.commandExecution "Found more than one EC2 instance matching the criteria."), log1)
      else
        (getInstanceAttrCall conn «attribute», log1 ++ [NetCall.getInstanceAttr])
    | (FindResult.objs l, log1) =>
      -- unreachable: `find_instances` called with `return_objs=False`
      -- never returns objects
      if l.length != 1 then
        (Except.error (PyExc.commandExecution "Found more than one EC2 instance matching the criteria."), log1)
      else
        (getInstanceAttrCall conn «attribute», log1 ++ [NetCall.getInstanceAttr])
  else
    (getInstanceAttrCall conn «attribute», [NetCall.getInstanceAttr])
where
  /-- The `conn.get_instance_attribute` call with its surrounding
  falsiness check and `except BotoServerError` handler. -/
  getInstanceAttrCall (conn : Conn) («attribute» : String) : Except PyExc GetAttrRet :=
    match conn.getInstanceAttributeResponse with
    | Except.error _ => Except.ok GetAttrRet.retFalse
    | Except.ok none => Except.ok GetAttrRet.retFalse
    | Except.ok (some v) => Except.ok (GetAttrRet.retPair «attribute» v)

/-- The value `set_attribute` returns on its non-raising paths: `False`
(falsy remote response or caught boto error) or the remote response. -/
inductive SetAttrRet where
  | retFalse
  | retTrue
deriving Repr, DecidableEq

/-- `set_attribute`: validate the selector and the «attribute» name, then
resolve `instance_name` through `find_instances` (raising `TypeError`
when the finder returned its `False` sentinel, since the source applies
`len` to it) and issue one `modify_instance_attribute` call. -/
def set_attribute (resolve : CredResolver) («attribute» : String) (attribute_value : PyVal)
    (instance_name instance_id : Option String)
    (region key keyid profile : Option String) :
    Except PyExc SetAttrRet × List NetCall :=
  let conn := resolve (Creds.mk region key keyid profile)
  if !(pyTruthy instance_name || pyTruthy instance_id) then
    (Except.error (PyExc.saltInvocation "At least one of the following must be specified: instance_name or instance_id."), [])
  else if pyTruthy instance_name && pyTruthy instance_id then
    (Except.error (PyExc.saltInvocation "Both instance_name and instance_id can not be specified in the same command."), [])
  else if !(attribute_list.contains «attribute») then
    (Except.error (PyExc.saltInvocation ("Attribute must be one of: " ++ toString attribute_list ++ ".")), [])
  else if pyTruthy instance_name then
    match find_instances resolve none instance_name [] region key keyid profile false with
    | (FindResult.falseSentinel, log1) =>
      (Except.error (PyExc.typeError "object of type bool has no len()"), log1)
    | (FindResult.ids l, log1) =>
      if l.length != 1 then
        (Except.error (PyExc.commandExecution "Found more than one EC2 instance matching the criteria."), log1)
      else
        (modifyInstanceAttrCall conn, log1 ++ [NetCall.modifyInstanceAttr])
    | (FindResult.objs l, log1) =>
      -- unreachable: `find_instances` called with `return_objs=False`
      -- never returns objects
      if l.length != 1 then
        (Except.error (PyExc.commandExecution "Found more than one EC2 instance matching the criteria."), log1)
      else
        (modifyInstanceAttrCall conn, log1 ++ [NetCall.modifyInstanceAttr])
  else
    (modifyInstanceAttrCall conn, [NetCall.modifyInstanceAttr])
where
  /-- The `conn.modify_instance_attribute` call with its surrounding
  falsiness check and `except BotoServerError` handler. -/
  modifyInstanceAttrCall (conn : Conn) : Except PyExc SetAttrRet :=
    match conn.modifyInstanceAttributeResponse with
    | Except.error _ => Except.ok SetAttrRet.retFalse
    | Except.ok false => Except.ok SetAttrRet.retFalse
    | Except.ok true => Except.ok SetAttrRet.retTrue

/-- `conn.get_all_network_interfaces([ids])`: list the interfaces whose
id is among `ids`, or raise `EC2ResponseError`. -/
def connGetAllEnisByIds (conn : Conn) (ids : List String) : Except BotoErr (List ENI) :=
  if conn.getAllEnisError then
    Except.error (BotoErr.mk "EC2ResponseError")
  else
    Except.ok (conn.enis.filter (fun e =>
      match e.id with
      | some i => ids.contains i
      | none => false))

/-- `conn.get_all_network_interfaces(filters={'tag:Name': name})`: list
the interfaces carrying the `Name` tag `name`, or raise
`EC2ResponseError`. -/
def connGetAllEnisByName (conn : Conn) (name : String) : Except BotoErr (List ENI) :=
  if conn.getAllEnisError then
    Except.error (BotoErr.mk "EC2ResponseError")
  else
    Except.ok (conn.enis.filter (fun e => e.tags.contains ("Name", name)))

/-- The listing call issued inside `_get_network_interface`: by id when
`network_interface_id` is truthy, otherwise by `Name` tag. -/
def eniListing (conn : Conn) (name network_interface_id : Option String) : Except BotoErr (List ENI) :=
  if pyTruthy network_interface_id then
    connGetAllEnisByIds conn [network_interface_id.getD ""]
  else
    connGetAllEnisByName conn (name.getD "")

/-- `_get_network_interface`: require a selector, issue one listing
call, and wrap the outcome: zero matches give the `No ENIs found.`
error, two or more give the multiple-ENIs error, exactly one gives the
interface under `result`. When the listing call raises, the source sets
`r['error']` in the handler and then evaluates `if not enis:` with
`enis` never assigned, raising `UnboundLocalError`. -/
def _get_network_interface (conn : Conn) (name network_interface_id : Option String) :
    Except PyExc (Envelope ENI) × List NetCall :=
  if !(pyTruthy name || pyTruthy network_interface_id) then
    (Except.error (PyExc.saltInvocation "Either name or network_interface_id must be provided."), [])
  else
    match eniListing conn name network_interface_id with
    | Except.error _ => (Except.error (PyExc.unboundLocal "enis"), [NetCall.getAllEnis])
    | Except.ok enis =>
      ((match enis with
        | [] => Except.ok (Envelope.err "No ENIs found.")
        | [eni] => Except.ok (Envelope.res eni)
        | _ => Except.ok (Envelope.err "Name specified is tagged on multiple ENIs.")),
       [NetCall.getAllEnis])

/-- `_describe_network_interface`: project an ENI object into a flat
dict, copying each attribute only when present (`hasattr`), always
materializing `region`, `groups` and `private_ip_addresses`, and copying
the attachment attributes only when present on `eni.attachment`
(`hasattr` on `None` is false for every attribute). -/
def _describe_network_interface (eni : ENI) : NIDesc :=
  NIDesc.mk eni.id eni.vpc_id eni.status eni.description eni.regionName
    eni.groups eni.private_ip_addresses
    (eni.attachment.bind ENIAttachment.id)
    (eni.attachment.bind ENIAttachment.instance_id)
    (eni.attachment.bind ENIAttachment.device_index)
    (eni.attachment.bind ENIAttachment.status)

/-- A value stored under the `result` key by the network-interface
functions: an id string, a projected description, a raw remote boolean,
Python `None`, or a raw ENI object passed through from
`_get_network_interface`. -/
inductive RVal where
  | idStr (s : String)
  | desc (d : NIDesc)
  | boolean (b : Bool)
  | pyNone
  | eniObj (e : ENI)
deriving Repr, DecidableEq

/-- `return result`: pass a `_get_network_interface` envelope through
unchanged (its `result` value, when present, is the raw ENI object). -/
def passThrough (env : Envelope ENI) : Envelope RVal :=
  Envelope.mk (env.result?.map RVal.eniObj) env.error?

/-- `get_network_interface_id`: look interfaces up by `Name` tag and
return the unique match's id in an envelope. On a listing error the
source sets `r['error']` and then evaluates `if not enis:` with `enis`
never assigned, raising `UnboundLocalError`. -/
def get_network_interface_id (resolve : CredResolver) (name : String)
    (region key keyid profile : Option String) :
    Except PyExc (Envelope RVal) × List NetCall :=
  let conn := resolve (Creds.mk region key keyid profile)
  match connGetAllEnisByName conn name with
  | Except.error _ => (Except.error (PyExc.unboundLocal "enis"), [NetCall.getAllEnis])
  | Except.ok enis =>
    ((match enis with
      | [] => Except.ok (Envelope.err "No ENIs found.")
      | [eni] =>
        (match eni.id with
         | some i => Except.ok (Envelope.res (RVal.idStr i))
         | none => Except.error (PyExc.attributeError "id"))
      | _ => Except.ok (Envelope.err "Name specified is tagged on multiple ENIs.")),
     [NetCall.getAllEnis])

/-- `get_network_interface`: resolve the unique interface via
`_get_network_interface`; map the `No ENIs found.` error to
`{result: None}`, return any other error envelope unchanged, and
otherwise return the projected description. -/
def get_network_interface (resolve : CredResolver) (name network_interface_id : Option String)
    (region key keyid profile : Option String) :
    Except PyExc (Envelope RVal) × List NetCall :=
  let conn := resolve (Creds.mk region key keyid profile)
  match _get_network_interface conn name network_interface_id with
  | (Except.error e, log1) => (Except.error e, log1)
  | (Except.ok env, log1) =>
    match env.error? with
    | some m =>
      if m.message == "No ENIs found." then
        (Except.ok (Envelope.res RVal.pyNone), log1)
      else
        (Except.ok (passThrough env), log1)
    | none =>
      match env.result? with
      | none => (Except.error (PyExc.keyError "result"), log1)
      | some eni => (Except.ok (Envelope.res (RVal.desc (_describe_network_interface eni))), log1)

/-- The cross-module collaborators reached through `__salt__`. -/
structure Salt where
  /-- `boto_vpc.get_subnet_association(...).get('vpc_id')`. -/
  getSubnetAssociation : List String → Creds → Option String
  /-- `boto_secgroup.convert_to_group_ids`. -/
  convertToGroupIds : Option PyVal → String → Creds → List String

/-- `create_network_interface`: refuse when an interface already carries
the requested `Name` tag, resolve the subnet's VPC and the group ids,
then issue the create call and tag the new interface. -/
def create_network_interface (resolve : CredResolver) (salt : Salt)
    (name subnet_id : String) (private_ip_address description : Option String)
    (groups : Option PyVal) (region key keyid profile : Option String) :
    Except PyExc (Envelope RVal) × List NetCall :=
  let conn := resolve (Creds.mk region key keyid profile)
  match _get_network_interface conn (some name) none with
  | (Except.error e, log1) => (Except.error e, log1)
  | (Except.ok env, log1) =>
    if env.result?.isSome then
      (Except.ok (Envelope.err "An ENI with this Name tag already exists."), log1)
    else
      let vpcOpt := salt.getSubnetAssociation [subnet_id] (Creds.mk region key keyid profile)
      if !pyTruthy vpcOpt then
        (Except.ok (Envelope.err ("subnet_id " ++ subnet_id ++ " does not map to a valid vpc id.")), log1)
      else
        let _groups := salt.convertToGroupIds groups (vpcOpt.getD "") (Creds.mk region key keyid profile)
        match conn.createEniResponse with
        | Except.error e => (Except.ok (Envelope.errOf e), log1 ++ [NetCall.createEni])
        | Except.ok eni =>
          match conn.addTagResponse with
          | Except.error e => (Except.ok (Envelope.errOf e), log1 ++ [NetCall.createEni, NetCall.addTag])
          | Except.ok _ =>
            (Except.ok (Envelope.res (RVal.desc (_describe_network_interface eni))),
             log1 ++ [NetCall.createEni, NetCall.addTag])

/-- The `conn.delete_network_interface` call with its
`except EC2ResponseError` handler. -/
def issueDeleteCall (conn : Conn) (log1 : List NetCall) :
    Except PyExc (Envelope RVal) × List NetCall :=
  match conn.deleteEniResponse with
  | Except.ok b => (Except.ok (Envelope.res (RVal.boolean b)), log1 ++ [NetCall.deleteEni])
  | Except.error e => (Except.ok (Envelope.errOf e), log1 ++ [NetCall.deleteEni])

/-- `delete_network_interface`: require a selector, resolve the unique
interface, read its projected id (`KeyError` is caught and mapped to an
error envelope), and issue the delete call. -/
def delete_network_interface (resolve : CredResolver)
    (name network_interface_id : Option String)
    (region key keyid profile : Option String) :
    Except PyExc (Envelope RVal) × List NetCall :=
  if !(pyTruthy name || pyTruthy network_interface_id) then
    (Except.error (PyExc.saltInvocation "Either name or network_interface_id must be provided."), [])
  else
    let conn := resolve (Creds.mk region key keyid profile)
    match _get_network_interface conn name network_interface_id with
    | (Except.error e, log1) => (Except.error e, log1)
    | (Except.ok env, log1) =>
      if env.error?.isSome then
        (Except.ok (passThrough env), log1)
      else
        match env.result? with
        | none => (Except.error (PyExc.keyError "result"), log1)
        | some eni =>
          match (_describe_network_interface eni).id? with
          | none => (Except.ok (Envelope.err "ID not found for this network interface."), log1)
          | some _ => issueDeleteCall conn log1

/-- The `conn.attach_network_interface` call with its
`except EC2ResponseError` handler. -/
def issueAttachCall (conn : Conn) (log1 : List NetCall) :
    Except PyExc (Envelope RVal) × List NetCall :=
  match conn.attachEniResponse with
  | Except.ok b => (Except.ok (Envelope.res (RVal.boolean b)), log1 ++ [NetCall.attachEni])
  | Except.error e => (Except.ok (Envelope.errOf e), log1 ++ [NetCall.attachEni])

/-- `attach_network_interface`: require an interface selector, then
require `instance_id` and `device_index` by truthiness (so a supplied
`device_index` of `0` fails the check), resolve the unique interface,
read its projected id, and issue the attach call. -/
def attach_network_interface (resolve : CredResolver)
    (name network_interface_id instance_id : Option String)
    (device_index : Option Int)
    (region key keyid profile : Option String) :
    Except PyExc (Envelope RVal) × List NetCall :=
  if !(pyTruthy name || pyTruthy network_interface_id) then
    (Except.error (PyExc.saltInvocation "Either name or network_interface_id must be provided."), [])
  else if !(pyTruthy instance_id && pyTruthyInt device_index) then
    (Except.error (PyExc.saltInvocation "instance_id and device_index are required parameters."), [])
  else
    let conn := resolve (Creds.mk region key keyid profile)
    match _get_network_interface conn name network_interface_id with
    | (Except.error e, log1) => (Except.error e, log1)
    | (Except.ok env, log1) =>
      if env.error?.isSome then
        (Except.ok (passThrough env), log1)
      else
        match env.result? with
        | none => (Except.error (PyExc.keyError "result"), log1)
        | some eni =>
          match (_describe_network_interface eni).id? with
          | none => (Except.ok (Envelope.err "ID not found for this network interface."), log1)
          | some _ => issueAttachCall conn log1

/-- The `conn.detach_network_interface` call with its
`except EC2ResponseError` handler. -/
def issueDetachCall (conn : Conn) (log1 : List NetCall) :
    Except PyExc (Envelope RVal) × List NetCall :=
  match conn.detachEniResponse with
  | Except.ok b => (Except.ok (Envelope.res (RVal.boolean b)), log1 ++ [NetCall.detachEni])
  | Except.error e => (Except.ok (Envelope.errOf e), log1 ++ [NetCall.detachEni])

/-- `detach_network_interface`: require a selector; when no
`attachment_id` is supplied, resolve the unique interface and read the
attachment id from its projection (`KeyError` is caught and mapped to an
error envelope); then issue the detach call. -/
def detach_network_interface (resolve : CredResolver)
    (name network_interface_id attachment_id : Option String) (force : Bool)
    (region key keyid profile : Option String) :
    Except PyExc (Envelope RVal) × List NetCall :=
  if !(pyTruthy name || pyTruthy network_interface_id || pyTruthy attachment_id) then
    (Except.error (PyExc.saltInvocation "Either name or network_interface_id or attachment_id must be provided."), [])
  else
    let conn := resolve (Creds.mk region key keyid profile)
    if !pyTruthy attachment_id then
      match _get_network_interface conn name network_interface_id with
      | (Except.error e, log1) => (Except.error e, log1)
      | (Except.ok env, log1) =>
        if env.error?.isSome then
          (Except.ok (passThrough env), log1)
        else
          match env.result? with
          | none => (Except.error (PyExc.keyError "result"), log1)
          | some eni =>
            match (_describe_network_interface eni).attachment_id? with
            | none => (Except.ok (Envelope.err "Attachment id not found for this ENI."), log1)
            | some _ => issueDetachCall conn log1
    else
      issueDetachCall conn []

/-- Translate the logical attribute name into the remote API's
attribute name. -/
def mungeAttr : Option String → Option String
  | some "groups" => some "groupSet"
  | some "source_dest_check" => some "sourceDestCheck"
  | some "delete_on_termination" => some "deleteOnTermination"
  | a => a

/-- The `conn.modify_network_interface_attribute` call with its
`except EC2ResponseError` handler. -/
def issueModifyAttrCall (conn : Conn) (log1 : List NetCall) :
    Except PyExc (Envelope RVal) × List NetCall :=
  match conn.modifyEniAttrResponse with
  | Except.ok b => (Except.ok (Envelope.res (RVal.boolean b)), log1 ++ [NetCall.modifyEniAttr])
  | Except.error e => (Except.ok (Envelope.errOf e), log1 ++ [NetCall.modifyEniAttr])

/-- The tail of `modify_network_interface_attribute` after group
resolution: require an attachment id when modifying
`deleteOnTermination`, then issue the modify call. -/
def modifyAttrTail (conn : Conn) (info : NIDesc) (mungedAttr : Option String)
    (log1 : List NetCall) : Except PyExc (Envelope RVal) × List NetCall :=
  if mungedAttr == some "deleteOnTermination" then
    match info.attachment_id? with
    | none =>
      (Except.ok (Envelope.err "No attachment id found for this ENI. The ENI must be attached before delete_on_termination can be modified"), log1)
    | some _ => issueModifyAttrCall conn log1
  else
    issueModifyAttrCall conn log1

/-- `modify_network_interface_attribute`: require a selector and
(jointly) `attr`/`value`, resolve the unique interface, read its
projected id (an absent id raises an uncaught `KeyError`), translate the
attribute name, re-resolve group names to ids when modifying `groupSet`
inside a VPC, require an attachment id for `deleteOnTermination`, and
issue the modify call. -/
def modify_network_interface_attribute (resolve : CredResolver) (salt : Salt)
    (name network_interface_id : Option String)
    (attr : Option String) (value : Option PyVal)
    (region key keyid profile : Option String) :
    Except PyExc (Envelope RVal) × List NetCall :=
  if !(pyTruthy name || pyTruthy network_interface_id) then
    (Except.error (PyExc.saltInvocation "Either name or network_interface_id must be provided."), [])
  else if attr.isNone && value.isNone then
    (Except.error (PyExc.saltInvocation "attr and value must be provided."), [])
  else
    let conn := resolve (Creds.mk region key keyid profile)
    match _get_network_interface conn name network_interface_id with
    | (Except.error e, log1) => (Except.error e, log1)
    | (Except.ok env, log1) =>
      if env.error?.isSome then
        (Except.ok (passThrough env), log1)
      else
        match env.result? with
        | none => (Except.error (PyExc.keyError "result"), log1)
        | some eni =>
          let info := _describe_network_interface eni
          match info.id? with
          | none => (Except.error (PyExc.keyError "id"), log1)
          | some _ =>
            let mungedAttr := mungeAttr attr
            if pyTruthy info.vpc_id? && (mungedAttr == some "groupSet") then
              let converted := salt.convertToGroupIds value (info.vpc_id?.getD "")
                (Creds.mk region key keyid profile)
              if converted.isEmpty then
                (Except.ok (Envelope.err "Security groups do not map to valid security group ids"), log1)
              else
                modifyAttrTail conn info mungedAttr log1
            else
              modifyAttrTail conn info mungedAttr log1

/-- The status-polling loop of `run`, from poll index `k` with at most
`fuel` further polls: `while status == 'pending': time.sleep(5);
status = instance.update()`. Returns the first non-pending status, or
`none` when every one of the `fuel` polls returned `pending` (the
source loop simply keeps going in that case — it has no bound of its
own). -/
def runPollLoopFrom (statuses : Nat → String) : Nat → Nat → Option String
  | _, 0 => none
  | k, Nat.succ fuel =>
    if statuses k == "pending" then runPollLoopFrom statuses (k + 1) fuel
    else some (statuses k)

/-- The status-polling loop of `run`, observed for at most `fuel` polls. -/
def runPollLoop (statuses : Nat → String) (fuel : Nat) : Option String :=
  runPollLoopFrom statuses 0 fuel

/-- The loop exits at poll `n`: poll `n` is the first poll whose status
is not `pending`. -/
def pollExits (statuses : Nat → String) (n : Nat) : Prop :=
  statuses n ≠ "pending" ∧ ∀ k, k < n → statuses k = "pending"

/-- The value `run` produces: `False` when the reservation failed,
`True` when the instance reached `running` (tags applied), the implicit
`None` on any other terminal status, or `stillPolling` when the loop has
not exited within the observed number of polls. -/
inductive RunOutcome where
  | retFalse
  | retTrue
  | retNone (status : String)
  | stillPolling
deriving Repr, DecidableEq

/-- `run`: reserve one instance, then poll its status until it leaves
`pending` (observed for at most `fuel` polls); on `running`, tag and
return `True`; on any other terminal status, log and fall off the end
(`None`). -/
def run (resolve : CredResolver) (image_id : String) (name : Option String)
    (tags : List (String × String)) (fuel : Nat)
    (region key keyid profile : Option String) : RunOutcome × List NetCall :=
  let conn := resolve (Creds.mk region key keyid profile)
  if !conn.runInstancesOk then
    (RunOutcome.retFalse, [NetCall.runInstances])
  else
    match runPollLoop conn.instanceStatusAt fuel with
    | none => (RunOutcome.stillPolling, [NetCall.runInstances])
    | some s =>
      if s == "running" then (RunOutcome.retTrue, [NetCall.runInstances])
      else (RunOutcome.retNone s, [NetCall.runInstances])

/-- The envelope-exclusivity check lifted over a possibly-raising
computation: a raised exception returns no dict at all. -/
def exceptOk {α : Type} : Except PyExc (Envelope α) → Bool
  | Except.ok env => env.xorKeys
  | Except.error _ => true

/-- A resolver returning the same connection for every credential tuple. -/
def constResolver (c : Conn) : CredResolver := fun _ => c

/-- Sample instance `i-0001`, Name-tagged `web1`. -/
def instA : Instance := Instance.mk "i-0001" [("Name", "web1")]

/-- Sample instance `i-0002`, also Name-tagged `web1`. -/
def instB : Instance := Instance.mk "i-0002" [("Name", "web1")]

/-- Sample attachment record. -/
def attachA : ENIAttachment :=
  ENIAttachment.mk (some "eni-attach-1") (some "i-0001") (some 1) (some "attached")

/-- Sample network interface `eni-0001`, Name-tagged `my_eni`. -/
def eniA : ENI :=
  ENI.mk (some "eni-0001") [("Name", "my_eni")] (some "vpc-1") (some "in-use")
    (some "sample") (some attachA) "us-east-1" [("grp", "sg-1")] [("10.0.0.5", true)]

/-- A connection whose listing calls report the given resources and
whose remaining remote calls all succeed with benign values. -/
def mkConn (instances : List Instance) (instErr : Bool) (enis : List ENI) (eniErr : Bool) : Conn :=
  Conn.mk instances instErr enis eniErr true (fun _ => "pending")
    (Except.ok (some "t2.micro")) (Except.ok true) (Except.ok eniA) (Except.ok ())
    (Except.ok true) (Except.ok true) (Except.ok true) (Except.ok true)

/-- Connection reporting exactly one instance matching `web1`. -/
def connOne : Conn := mkConn [instA] false [] false

/-- Connection reporting two instances matching `web1`. -/
def connTwo : Conn := mkConn [instA, instB] false [] false

/-- Connection reporting no instances, with a healthy transport. -/
def connNoMatch : Conn := mkConn [] false [] false

/-- Connection whose `get_all_instances` call raises `BotoServerError`. -/
def connBroken : Conn := mkConn [] true [] false

/-- Connection reporting exactly one interface Name-tagged `my_eni`. -/
def connEniOne : Conn := mkConn [] false [eniA] false

/-- Connection whose launched instance reports `pending` at every poll. -/
def connPending : Conn := mkConn [] false [] false

/-- Sample `__salt__` collaborators: the subnet maps to `vpc-1` and
every group resolves to `sg-1`. -/
def saltStub : Salt :=
  Salt.mk (fun _ _ => some "vpc-1") (fun _ _ _ => ["sg-1"])

/-- `None` is falsy. -/
lemma pyTruthy_none : pyTruthy none = false := rfl

/-- Every envelope `_get_network_interface` returns (without raising)
has exactly one of the `result` and `error` keys. -/
lemma _get_env_xor (conn : Conn) (name nid : Option String) (env : Envelope ENI)
    (log : List NetCall)
    (h : _get_network_interface conn name nid = (Except.ok env, log)) :
    env.xorKeys = true := by
  simp only [_get_network_interface] at h
  split at h
  · simp at h
  · split at h
    · simp at h
    · rename_i enis heq
      clear heq
      rcases enis with _ | ⟨a, _ | ⟨b, t⟩⟩ <;>
      · simp only [Prod.mk.injEq, Except.ok.injEq] at h
        rcases h with ⟨h1, -⟩
        subst h1
        rfl

/-- `find_instances` always issues exactly its one listing call. -/
lemma find_instances_log (resolve : CredResolver) (instance_id name : Option String)
    (tags : List (String × String)) (region key keyid profile : Option String)
    (return_objs : Bool) :
    (find_instances resolve instance_id name tags region key keyid profile return_objs).2 =
      [NetCall.getAllInstances] := by
  simp only [find_instances]
  split
  · rfl
  · split
    · rfl
    · split <;> rfl

/-- `_get_network_interface` resolves a truthy name matched by exactly
one interface to that interface. -/
lemma _get_by_name_unique (conn : Conn) (name : String) (e : ENI)
    (h1 : (name != "") = true)
    (hE : conn.getAllEnisError = false)
    (hM : conn.enis.filter (fun x => x.tags.contains ("Name", name)) = [e]) :
    _get_network_interface conn (some name) none =
      (Except.ok (Envelope.res e), [NetCall.getAllEnis]) := by
  simp only [_get_network_interface, eniListing, connGetAllEnisByName, pyTruthy, h1, hE,
    Option.getD_some, Bool.or_false, Bool.not_true, Bool.false_eq_true, if_false,
    Bool.not_eq_true', hM]

/-- Envelope exclusivity for `get_network_interface_id`. -/
lemma xor_get_network_interface_id (resolve : CredResolver) (name : String)
    (r k ki p : Option String) :
    exceptOk (get_network_interface_id resolve name r k ki p).1 = true := by
  simp only [get_network_interface_id]
  split
  · rfl
  · split
    · rfl
    · split <;> rfl
    · rfl

/-- Envelope exclusivity for `get_network_interface`. -/
lemma xor_get_network_interface (resolve : CredResolver)
    (name nid : Option String) (r k ki p : Option String) :
    exceptOk (get_network_interface resolve name nid r k ki p).1 = true := by
  simp only [get_network_interface]
  split
  · rfl
  · rename_i env log1 heq
    have hx := _get_env_xor _ _ _ _ _ heq
    split
    · split
      · rfl
      · rcases env with ⟨res?, err?⟩
        cases res? <;> cases err? <;>
          simp_all [exceptOk, passThrough, Envelope.xorKeys]
    · split <;> rfl

/-- Envelope exclusivity for `create_network_interface`. -/
lemma xor_create_network_interface (resolve : CredResolver) (salt : Salt)
    (name subnet_id : String) (pip desc : Option String) (groups : Option PyVal)
    (r k ki p : Option String) :
    exceptOk (create_network_interface resolve salt name subnet_id pip desc groups r k ki p).1 = true := by
  simp only [create_network_interface]
  split
  · rfl
  · split
    · rfl
    · split
      · rfl
      · split
        · rfl
        · split <;> rfl

/-- Envelope exclusivity for `delete_network_interface`. -/
lemma xor_delete_network_interface (resolve : CredResolver)
    (name nid : Option String) (r k ki p : Option String) :
    exceptOk (delete_network_interface resolve name nid r k ki p).1 = true := by
  simp only [delete_network_interface]
  split
  · rfl
  · split
    · rfl
    · rename_i env log1 heq
      have hx := _get_env_xor _ _ _ _ _ heq
      split
      · rcases env with ⟨res?, err?⟩
        cases res? <;> cases err? <;>
          simp_all [exceptOk, passThrough, Envelope.xorKeys]
      · split
        · rfl
        · split
          · rfl
          · simp only [issueDeleteCall]
            split <;> rfl

/-- Envelope exclusivity for `attach_network_interface`. -/
lemma xor_attach_network_interface (resolve : CredResolver)
    (name nid instance_id : Option String) (device_index : Option Int)
    (r k ki p : Option String) :
    exceptOk (attach_network_interface resolve name nid instance_id device_index r k ki p).1 = true := by
  simp only [attach_network_interface]
  split
  · rfl
  · split
    · rfl
    · split
      · rfl
      · rename_i env log1 heq
        have hx := _get_env_xor _ _ _ _ _ heq
        split
        · rcases env with ⟨res?, err?⟩
          cases res? <;> cases err? <;>
            simp_all [exceptOk, passThrough, Envelope.xorKeys]
        · split
          · rfl
          · split
            · rfl
            · simp only [issueAttachCall]
              split <;> rfl

/-- Envelope exclusivity for `detach_network_interface`. -/
lemma xor_detach_network_interface (resolve : CredResolver)
    (name nid attachment_id : Option String) (force : Bool)
    (r k ki p : Option String) :
    exceptOk (detach_network_interface resolve name nid attachment_id force r k ki p).1 = true := by
  simp only [detach_network_interface]
  split
  · rfl
  · split
    · split
      · rfl
      · rename_i env log1 heq
        have hx := _get_env_xor _ _ _ _ _ heq
        split
        · rcases env with ⟨res?, err?⟩
          cases res? <;> cases err? <;>
            simp_all [exceptOk, passThrough, Envelope.xorKeys]
        · split
          · rfl
          · split
            · rfl
            · simp only [issueDetachCall]
              split <;> rfl
    · simp only [issueDetachCall]
      split <;> rfl

/-- Envelope exclusivity for `modify_network_interface_attribute`. -/
lemma xor_modify_network_interface_attribute (resolve : CredResolver) (salt : Salt)
    (name nid : Option String) (attr : Option String) (value : Option PyVal)
    (r k ki p : Option String) :
    exceptOk (modify_network_interface_attribute resolve salt name nid attr value r k ki p).1 = true := by
  simp only [modify_network_interface_attribute]
  split
  · rfl
  · split
    · rfl
    · split
      · rfl
      · rename_i env log1 heq
        have hx := _get_env_xor _ _ _ _ _ heq
        split
        · rcases env with ⟨res?, err?⟩
          cases res? <;> cases err? <;>
            simp_all [exceptOk, passThrough, Envelope.xorKeys]
        · split
          · rfl
          · split
            · rfl
            · split
              · split
                · rfl
                · simp only [modifyAttrTail]
                  split
                  · split
                    · rfl
                    · simp only [issueModifyAttrCall]
                      split <;> rfl
                  · simp only [issueModifyAttrCall]
                    split <;> rfl
              · simp only [modifyAttrTail]
                split
                · split
                  · rfl
                  · simp only [issueModifyAttrCall]
                    split <;> rfl
                · simp only [issueModifyAttrCall]
                  split <;> rfl

/-- With every status poll reporting `pending`, the poll loop of `run`
is still running after any number of polls, from any starting index. -/
lemma runPollLoopFrom_pending (statuses : Nat → String)
    (h : ∀ j, statuses j = "pending") :
    ∀ fuel j, runPollLoopFrom statuses j fuel = none := by
  intro fuel
  induction fuel with
  | zero => intro j; rfl
  | succ n ih =>
    intro j
    simp only [runPollLoopFrom, h j, beq_self_eq_true, if_true]
    exact ih (j + 1)

/-- C1: for every ENI selector (name or network_interface_id), when the
listing succeeds `_get_network_interface` returns the error envelope
`No ENIs found.` on zero matches, `{result: <the interface>}` on exactly
one match, the error envelope `Name specified is tagged on multiple
ENIs.` on two or more matches, and never puts a `result` key in the
returned envelope when the match count differs from one. -/
theorem eni_uniqueness_resolver_cases (conn : Conn)
    (name network_interface_id : Option String) (l : List ENI)
    (hsel : (pyTruthy name || pyTruthy network_interface_id) = true)
    (hl : eniListing conn name network_interface_id = Except.ok l) :
    (l = [] →
      _get_network_interface conn name network_interface_id =
        (Except.ok (Envelope.err "No ENIs found."), [NetCall.getAllEnis])) ∧
    (∀ e, l = [e] →
      _get_network_interface conn name network_interface_id =
        (Except.ok (Envelope.res e), [NetCall.getAllEnis])) ∧
    (2 ≤ l.length →
      _get_network_interface conn name network_interface_id =
        (Except.ok (Envelope.err "Name specified is tagged on multiple ENIs."), [NetCall.getAllEnis])) ∧
    (l.length ≠ 1 → ∀ env,
      (_get_network_interface conn name network_interface_id).1 = Except.ok env →
      env.result? = none) := by
  simp only [_get_network_interface, hsel, Bool.not_true, Bool.false_eq_true, if_false, hl]
  refine ⟨?_, ?_, ?_, ?_⟩
  · rintro rfl
    rfl
  · rintro e rfl
    rfl
  · intro hlen
    rcases l with _ | ⟨a, _ | ⟨b, t⟩⟩
    · simp at hlen
    · simp at hlen
    · rfl
  · intro hlen env henv
    rcases l with _ | ⟨a, _ | ⟨b, t⟩⟩
    · simp only [Prod.fst, Except.ok.injEq] at henv
      rw [← henv]
      rfl
    · simp at hlen
    · simp only [Prod.fst, Except.ok.injEq] at henv
      rw [← henv]
      rfl

/-- C1 witness: with one interface Name-tagged `my_eni`,
`_get_network_interface` returns it under the `result` key. -/
theorem eni_uniqueness_resolver_cases_witness :
    _get_network_interface connEniOne (some "my_eni") none =
      (Except.ok (Envelope.res eniA), [NetCall.getAllEnis]) :=
  (eni_uniqueness_resolver_cases connEniOne (some "my_eni") none [eniA] rfl rfl).2.1 eniA rfl

/-- C2: when the selector matches exactly one instance, `terminate`
returns `True` and issues exactly one terminate call, on that instance;
when the selector matches two or more instances, it returns `False` and
issues no remote mutating call (only the finder's read). -/
theorem terminate_single_match_safety (resolve : CredResolver)
    (instance_id name : Option String) (region key keyid profile : Option String)
    (i : Instance)
    (hE : (resolve (Creds.mk region key keyid profile)).getAllInstancesError = false) :
    ((resolve (Creds.mk region key keyid profile)).instances.filter
        (instanceMatches instance_id name []) = [i] →
      terminate resolve instance_id name region key keyid profile =
        (true, [NetCall.getAllInstances, NetCall.terminateInstance i.id])) ∧
    (2 ≤ ((resolve (Creds.mk region key keyid profile)).instances.filter
        (instanceMatches instance_id name [])).length →
      terminate resolve instance_id name region key keyid profile =
        (false, [NetCall.getAllInstances])) := by
  constructor
  · intro hM
    simp only [terminate, find_instances, hE, Bool.false_eq_true, if_false, hM]
    rfl
  · intro hM
    rcases hF : (resolve (Creds.mk region key keyid profile)).instances.filter
        (instanceMatches instance_id name []) with _ | ⟨a, _ | ⟨b, t⟩⟩
    · rw [hF] at hM
      simp at hM
    · rw [hF] at hM
      simp at hM
    · simp only [terminate, find_instances, hE, Bool.false_eq_true, if_false, hF]
      rfl

/-- C2 witness: selector `name=web1` matching exactly `i-0001` makes
`terminate` return `True` with one terminate call for `i-0001`, and a
selector matching two instances makes it return `False` with no
mutating call. -/
theorem terminate_single_match_safety_witness :
    terminate (constResolver connOne) none (some "web1") none none none none =
      (true, [NetCall.getAllInstances, NetCall.terminateInstance "i-0001"]) ∧
    terminate (constResolver connTwo) none (some "web1") none none none none =
      (false, [NetCall.getAllInstances]) :=
  ⟨(terminate_single_match_safety (constResolver connOne) none (some "web1")
      none none none none instA rfl).1 rfl,
   (terminate_single_match_safety (constResolver connTwo) none (some "web1")
      none none none none instA rfl).2 (by decide)⟩

/-- C3 counterexample: the status-polling loop inside `run` is not a
bounded computation for every sequence of status responses — for the
sequence that answers `pending` at every poll, there is no poll at which
the loop exits. -/
theorem run_poll_pending_forever_never_exits :
    ¬ ∃ n, pollExits (fun _ => "pending") n := by
  rintro ⟨n, hn, -⟩
  exact hn rfl

/-- C3 (amended): the status-polling loop inside `run` has no configured
bound: whenever the reservation succeeds and every status poll reports
`pending`, `run` is still polling after any number of polls and there is
no poll at which the loop exits — no startup-timeout error is ever
produced. -/
theorem run_poll_loop_unbounded (resolve : CredResolver) (image_id : String)
    (name : Option String) (tags : List (String × String))
    (region key keyid profile : Option String)
    (hres : (resolve (Creds.mk region key keyid profile)).runInstancesOk = true)
    (hpend : ∀ j, (resolve (Creds.mk region key keyid profile)).instanceStatusAt j = "pending") :
    (∀ fuel, (run resolve image_id name tags fuel region key keyid profile).1 =
      RunOutcome.stillPolling) ∧
    ¬ ∃ n, pollExits (resolve (Creds.mk region key keyid profile)).instanceStatusAt n := by
  constructor
  · intro fuel
    simp only [run, hres, Bool.not_true, Bool.false_eq_true, if_false, runPollLoop,
      runPollLoopFrom_pending _ hpend fuel 0]
  · rintro ⟨n, hn, -⟩
    exact hn (hpend n)

/-- C3 witness: with an always-`pending` instance, `run` is still
polling after 1000 polls. -/
theorem run_poll_loop_unbounded_witness :
    (run (constResolver connPending) "ami-x" none [] 1000 none none none none).1 =
      RunOutcome.stillPolling :=
  (run_poll_loop_unbounded (constResolver connPending) "ami-x" none [] none none none none
    rfl (fun _ => rfl)).1 1000

/-- C4 counterexample: `find_instances` returns the very same value —
the `False` sentinel — for a query matching zero instances over a
healthy transport and for a query whose remote call fails, so the
empty-result signal and the transport-error signal are not distinct. -/
theorem find_instances_empty_eq_transport_error :
    (find_instances (constResolver connNoMatch) none (some "web1") [] none none none none false).1 =
      FindResult.falseSentinel ∧
    (find_instances (constResolver connBroken) none (some "web1") [] none none none none false).1 =
      FindResult.falseSentinel := ⟨rfl, rfl⟩

/-- C4 (amended): `find_instances` returns the same boolean-`False`
sentinel both when the query matches zero instances and when the remote
call fails with a transport error; the two outcomes are not
distinguishable from its return value. -/
theorem find_instances_false_sentinel_both (resolve : CredResolver)
    (instance_id name : Option String) (tags : List (String × String))
    (region key keyid profile : Option String) (return_objs : Bool) :
    ((resolve (Creds.mk region key keyid profile)).getAllInstancesError = true →
      (find_instances resolve instance_id name tags region key keyid profile return_objs).1 =
        FindResult.falseSentinel) ∧
    ((resolve (Creds.mk region key keyid profile)).getAllInstancesError = false →
      (resolve (Creds.mk region key keyid profile)).instances.filter
        (instanceMatches instance_id name tags) = [] →
      (find_instances resolve instance_id name tags region key keyid profile return_objs).1 =
        FindResult.falseSentinel) := by
  constructor
  · intro hE
    simp only [find_instances, hE, if_true]
  · intro hE hM
    simp only [find_instances, hE, Bool.false_eq_true, if_false, hM, List.isEmpty_nil, if_true]

/-- C4 witness: a tag query over a broken transport and a tag query
matching nothing both evaluate to the `False` sentinel. -/
theorem find_instances_false_sentinel_both_witness :
    (find_instances (constResolver connBroken) none none [("role", "web")] none none none none
      true).1 = FindResult.falseSentinel ∧
    (find_instances (constResolver connNoMatch) none none [("role", "web")] none none none none
      true).1 = FindResult.falseSentinel :=
  ⟨(find_instances_false_sentinel_both (constResolver connBroken) none none [("role", "web")]
      none none none none true).1 rfl,
   (find_instances_false_sentinel_both (constResolver connNoMatch) none none [("role", "web")]
      none none none none true).2 rfl rfl⟩

/-- C5: every dict returned (without raising) by the network-interface
operations — `get_network_interface_id`, `get_network_interface`,
`create_network_interface`, `delete_network_interface`,
`attach_network_interface`, `detach_network_interface`,
`modify_network_interface_attribute` — contains exactly one of the keys
`result` and `error`, never both. -/
theorem network_interface_envelope_exclusive :
    (∀ resolve name r k ki p,
      exceptOk (get_network_interface_id resolve name r k ki p).1 = true) ∧
    (∀ resolve name nid r k ki p,
      exceptOk (get_network_interface resolve name nid r k ki p).1 = true) ∧
    (∀ resolve salt name subnet_id pip desc groups r k ki p,
      exceptOk (create_network_interface resolve salt name subnet_id pip desc groups r k ki p).1 = true) ∧
    (∀ resolve name nid r k ki p,
      exceptOk (delete_network_interface resolve name nid r k ki p).1 = true) ∧
    (∀ resolve name nid instance_id device_index r k ki p,
      exceptOk (attach_network_interface resolve name nid instance_id device_index r k ki p).1 = true) ∧
    (∀ resolve name nid attachment_id force r k ki p,
      exceptOk (detach_network_interface resolve name nid attachment_id force r k ki p).1 = true) ∧
    (∀ resolve salt name nid attr value r k ki p,
      exceptOk (modify_network_interface_attribute resolve salt name nid attr value r k ki p).1 = true) :=
  ⟨xor_get_network_interface_id, xor_get_network_interface, xor_create_network_interface,
   xor_delete_network_interface, xor_attach_network_interface, xor_detach_network_interface,
   xor_modify_network_interface_attribute⟩

/-- C6: for every attribute string outside the fixed 13-entry
allow-list, `get_attribute` and `set_attribute` raise
`SaltInvocationError` and issue no remote call. -/
theorem attribute_allowlist_validation (resolve : CredResolver) (a : String) (v : PyVal)
    (instance_name instance_id : Option String) (r k ki p : Option String)
    (h : attribute_list.contains a = false) :
    (∃ m, get_attribute resolve a instance_name instance_id r k ki p =
      (Except.error (PyExc.saltInvocation m), [])) ∧
    (∃ m, set_attribute resolve a v instance_name instance_id r k ki p =
      (Except.error (PyExc.saltInvocation m), [])) := by
  constructor
  · simp only [get_attribute]
    split
    · exact ⟨_, rfl⟩
    · split
      · exact ⟨_, rfl⟩
      · rw [h]
        exact ⟨_, rfl⟩
  · simp only [set_attribute]
    split
    · exact ⟨_, rfl⟩
    · split
      · exact ⟨_, rfl⟩
      · rw [h]
        exact ⟨_, rfl⟩

/-- C6 witness: the attribute string `bogus` is rejected by both
functions with no remote call issued. -/
theorem attribute_allowlist_validation_witness :
    (∃ m, get_attribute (constResolver connOne) "bogus" (some "web1") none none none none none =
      (Except.error (PyExc.saltInvocation m), [])) ∧
    (∃ m, set_attribute (constResolver connOne) "bogus" (PyVal.boolean false) (some "web1") none
      none none none none = (Except.error (PyExc.saltInvocation m), [])) :=
  attribute_allowlist_validation (constResolver connOne) "bogus" (PyVal.boolean false)
    (some "web1") none none none none none rfl

/-- C7: when the requested name is already the `Name` tag of exactly one
existing interface, `create_network_interface` returns the duplicate-name
error envelope and issues no remote create call (only the finder's
listing read). -/
theorem create_network_interface_duplicate_name (resolve : CredResolver) (salt : Salt)
    (name subnet_id : String) (pip desc : Option String) (groups : Option PyVal)
    (r k ki p : Option String) (e : ENI)
    (hname : (name != "") = true)
    (hE : (resolve (Creds.mk r k ki p)).getAllEnisError = false)
    (hM : (resolve (Creds.mk r k ki p)).enis.filter
      (fun x => x.tags.contains ("Name", name)) = [e]) :
    create_network_interface resolve salt name subnet_id pip desc groups r k ki p =
      (Except.ok (Envelope.err "An ENI with this Name tag already exists."),
       [NetCall.getAllEnis]) := by
  simp only [create_network_interface, _get_by_name_unique _ _ _ hname hE hM]
  rfl

/-- C7 witness: creating an interface named `my_eni` while one interface
already carries that Name tag yields the duplicate-name error envelope
and no create call. -/
theorem create_network_interface_duplicate_name_witness :
    create_network_interface (constResolver connEniOne) saltStub "my_eni" "subnet-1"
      none none none none none none none =
      (Except.ok (Envelope.err "An ENI with this Name tag already exists."),
       [NetCall.getAllEnis]) :=
  create_network_interface_duplicate_name (constResolver connEniOne) saltStub "my_eni"
    "subnet-1" none none none none none none none eniA rfl rfl rfl

/-- C8: `exists` produces the same result for all values of `region`,
`key`, `keyid` and `profile` with a fixed selector: the source drops
these parameters when delegating to `find_instances`. -/
theorem exists_ignores_credentials (resolve : CredResolver)
    (instance_id name : Option String) (tags : List (String × String))
    (r1 k1 ki1 p1 r2 k2 ki2 p2 : Option String) :
    «exists» resolve instance_id name tags r1 k1 ki1 p1 =
      «exists» resolve instance_id name tags r2 k2 ki2 p2 := rfl

/-- C9: with an `instance_name` for which `find_instances` returns its
boolean-`False` sentinel (no match, or transport error), `get_attribute`
and `set_attribute` apply `len` to that boolean and raise an uncaught
`TypeError` instead of a clean not-found value. -/
theorem attribute_lookup_not_found_typeerror (resolve : CredResolver) (a : String)
    (v : PyVal) (instance_name : Option String) (r k ki p : Option String)
    (hA : attribute_list.contains a = true)
    (hname : pyTruthy instance_name = true)
    (hFind : (find_instances resolve none instance_name [] r k ki p false).1 =
      FindResult.falseSentinel) :
    get_attribute resolve a instance_name none r k ki p =
      (Except.error (PyExc.typeError "object of type bool has no len()"),
       [NetCall.getAllInstances]) ∧
    set_attribute resolve a v instance_name none r k ki p =
      (Except.error (PyExc.typeError "object of type bool has no len()"),
       [NetCall.getAllInstances]) := by
  have hpair : find_instances resolve none instance_name [] r k ki p false =
      (FindResult.falseSentinel, [NetCall.getAllInstances]) := by
    rw [← hFind, ← find_instances_log resolve none instance_name [] r k ki p false]
  have hmem : a ∈ attribute_list := by
    simpa using hA
  constructor
  · simp [get_attribute, hname, pyTruthy_none, hmem, hpair]
  · simp [set_attribute, hname, pyTruthy_none, hmem, hpair]

/-- C9 witness: looking up the valid attribute `instanceType` on the
unmatched name `ghost` raises the uncaught `TypeError` in both
functions. -/
theorem attribute_lookup_not_found_typeerror_witness :
    get_attribute (constResolver connNoMatch) "instanceType" (some "ghost") none
      none none none none =
      (Except.error (PyExc.typeError "object of type bool has no len()"),
       [NetCall.getAllInstances]) ∧
    set_attribute (constResolver connNoMatch) "instanceType" (PyVal.boolean true) (some "ghost")
      none none none none none =
      (Except.error (PyExc.typeError "object of type bool has no len()"),
       [NetCall.getAllInstances]) :=
  attribute_lookup_not_found_typeerror (constResolver connNoMatch) "instanceType"
    (PyVal.boolean true) (some "ghost") none none none none rfl rfl rfl

/-- C10: with any interface selector and a truthy `instance_id`,
`attach_network_interface` called with `device_index = 0` raises
`SaltInvocationError` claiming the required parameters are missing and
issues no remote call: the presence check tests truthiness, and `0` is
falsy. -/
theorem attach_device_index_zero_rejected (resolve : CredResolver)
    (name nid instance_id : Option String) (r k ki p : Option String)
    (hsel : (pyTruthy name || pyTruthy nid) = true)
    (hinst : pyTruthy instance_id = true) :
    attach_network_interface resolve name nid instance_id (some 0) r k ki p =
      (Except.error (PyExc.saltInvocation "instance_id and device_index are required parameters."),
       []) := by
  simp only [attach_network_interface, hsel, hinst, pyTruthyInt, Bool.not_true,
    Bool.false_eq_true, if_false, bne_self_eq_false, Bool.and_false, Bool.not_false, if_true]

/-- C10 witness: attaching `my_eni` to `i-0001` at device index `0` is
rejected with the required-parameters error and no remote call. -/
theorem attach_device_index_zero_rejected_witness :
    attach_network_interface (constResolver connEniOne) (some "my_eni") none (some "i-0001")
      (some 0) none none none none =
      (Except.error (PyExc.saltInvocation "instance_id and device_index are required parameters."),
       []) :=
  attach_device_index_zero_rejected (constResolver connEniOne) (some "my_eni") none
    (some "i-0001") none none none none rfl rfl

end BotoEc2
